import Mathlib

/-!
Shallow embedding of the wallet-authentication and anti-cheat session
validation engine of the mission7 example game.

Sources embedded:
* `src/app/lib/game-session.ts` — game session store: `createGameSession`,
  `validateGameAction`, `endGameSession`, `getSessionStats`.
* the server auth module (`validateSessionToken`, `generateSessionToken`,
  `createNonce`, `verifySignatureAndNonce`).
* `src/app/api/update-player-data/route.ts` — the score-commit handler.

Modelling conventions:
* JavaScript `Date.now()` timestamps are `Int` milliseconds, passed
  explicitly as a `now` argument to each operation that reads the clock.
* The in-memory `Map`s (`activeSessions`, `activeNonces`) are modelled as
  functions from keys to `Option` values; `Map.set` is pointwise update and
  `Map.delete` is pointwise erasure.
* The SHA-256 digest behind session tokens is idealised as a collision-free
  pairing: a `SessionToken` structure holding exactly the digested fields
  `(playerAddress, timestamp, secret)`.  Equality of tokens then coincides
  with equality of the digested data, i.e. the hash is treated as injective.
* The external signature check `verifyMessage` (viem) is an oracle: its
  boolean outcome is an explicit argument `sigValid`.
* Action `type` is a plain `String`, as at the JavaScript runtime, where the
  TypeScript union type does not exist and the `switch` in
  `validateGameAction` silently falls through for unrecognised strings.
* The optional `data` payload of a game action is opaque to every embedded
  operation and is omitted from the model.
-/

namespace Mission7

/-! ## Data model: game sessions (`src/app/lib/game-session.ts`) -/

/-- A game action as stored in `session.actions`: a runtime type string and a
millisecond timestamp. -/
structure GameAction where
  type : String
  timestamp : Int
deriving DecidableEq, Repr

/-- The server-side game session record. -/
structure GameSession where
  playerAddress : String
  sessionId : String
  startTime : Int
  lastAction : Int
  actions : List GameAction
  score : Nat
  enemiesKilled : Nat
  shotsFired : Nat
  isActive : Bool
deriving DecidableEq, Repr

/-- `GAME_LIMITS.MAX_SHOTS_PER_SECOND`. -/
def MAX_SHOTS_PER_SECOND : Nat := 10

/-- `GAME_LIMITS.MAX_KILLS_PER_SECOND`. -/
def MAX_KILLS_PER_SECOND : Nat := 5

/-- `GAME_LIMITS.MIN_TIME_BETWEEN_ACTIONS` (milliseconds). -/
def MIN_TIME_BETWEEN_ACTIONS : Int := 50

/-- `GAME_LIMITS.MAX_SESSION_DURATION` (milliseconds). -/
def MAX_SESSION_DURATION : Int := 30 * 60 * 1000

/-- `GAME_LIMITS.POINTS_PER_KILL`. -/
def POINTS_PER_KILL : Nat := 10

/-- `GAME_LIMITS.MAX_SCORE_PER_SESSION`. -/
def MAX_SCORE_PER_SESSION : Nat := 10000

/-- The `activeSessions` map: sessionId to session. -/
def SessionStore : Type := String → Option GameSession

/-- `activeSessions.set(sessionId, session)`; also models in-place mutation of
a session object retrieved from the map. -/
def setSession (store : SessionStore) (sessionId : String) (s : GameSession) :
    SessionStore :=
  fun k => if k = sessionId then some s else store k

/-- `createGameSession`: fresh session with zeroed counters and a synthetic
`game_started` action.  The random `sessionId` is passed in explicitly. -/
def createGameSession (store : SessionStore) (playerAddress sessionId : String)
    (now : Int) : SessionStore :=
  setSession store sessionId
    { playerAddress := playerAddress
      sessionId := sessionId
      startTime := now
      lastAction := now
      actions := [{ type := "game_started", timestamp := now }]
      score := 0
      enemiesKilled := 0
      shotsFired := 0
      isActive := true }

/-- The `recentActions` filter of `validateGameAction`: actions whose
timestamp lies in the trailing second. -/
def recentActions (s : GameSession) (now : Int) : List GameAction :=
  s.actions.filter (fun a => decide (now - a.timestamp < 1000))

/-- Number of recent actions of a given type, as counted by the per-second
rate checks of `validateGameAction`. -/
def recentCountOf (s : GameSession) (atype : String) (now : Int) : Nat :=
  ((recentActions s now).filter (fun a => a.type == atype)).length

/-- Result record of `validateGameAction`: `{ valid, error? }`.  The mutated
session is carried by the returned store. -/
structure ActionResult where
  valid : Bool
  error : Option String
deriving DecidableEq, Repr

/-- `validateGameAction(sessionId, playerAddress, action)` from
`src/app/lib/game-session.ts`, lines 67-140.  Returns the result together
with the post-call `activeSessions` store (mutations of the retrieved session
object persist in the map, including the ones performed on paths that then
return `valid: false`). -/
def validateGameAction (store : SessionStore) (sessionId playerAddress : String)
    (atype : String) (now : Int) : ActionResult × SessionStore :=
  match store sessionId with
  | none => ({ valid := false, error := some "Invalid session ID" }, store)
  | some session =>
    if session.playerAddress ≠ playerAddress then
      ({ valid := false, error := some "Session belongs to different player" }, store)
    else if session.isActive = false then
      ({ valid := false, error := some "Game session is not active" }, store)
    else if now - session.startTime > MAX_SESSION_DURATION then
      ({ valid := false, error := some "Game session expired" },
        setSession store sessionId { session with isActive := false })
    else if now - session.lastAction < MIN_TIME_BETWEEN_ACTIONS then
      ({ valid := false, error := some "Actions too frequent" }, store)
    else if atype = "shot_fired" then
      if recentCountOf session "shot_fired" now ≥ MAX_SHOTS_PER_SECOND then
        ({ valid := false, error := some "Too many shots fired per second" }, store)
      else
        let s1 := { session with shotsFired := session.shotsFired + 1 }
        let s2 := { s1 with
          actions := s1.actions ++ [{ type := atype, timestamp := now }]
          lastAction := now }
        ({ valid := true, error := none }, setSession store sessionId s2)
    else if atype = "enemy_killed" then
      if recentCountOf session "enemy_killed" now ≥ MAX_KILLS_PER_SECOND then
        ({ valid := false, error := some "Too many kills per second" }, store)
      else
        let s1 := { session with
          enemiesKilled := session.enemiesKilled + 1
          score := session.score + POINTS_PER_KILL }
        if s1.score > MAX_SCORE_PER_SESSION then
          ({ valid := false, error := some "Score too high for session duration" },
            setSession store sessionId s1)
        else
          let s2 := { s1 with
            actions := s1.actions ++ [{ type := atype, timestamp := now }]
            lastAction := now }
          ({ valid := true, error := none }, setSession store sessionId s2)
    else if atype = "game_ended" then
      let s1 := { session with isActive := false }
      let s2 := { s1 with
        actions := s1.actions ++ [{ type := atype, timestamp := now }]
        lastAction := now }
      ({ valid := true, error := none }, setSession store sessionId s2)
    else
      let s2 := { session with
        actions := session.actions ++ [{ type := atype, timestamp := now }]
        lastAction := now }
      ({ valid := true, error := none }, setSession store sessionId s2)

/-- Result record of `endGameSession`: `{ valid, finalScore?, error? }`. -/
structure EndResult where
  valid : Bool
  finalScore : Option Nat
  error : Option String
deriving DecidableEq, Repr

/-- `endGameSession(sessionId, playerAddress)` from
`src/app/lib/game-session.ts`, lines 146-173.  Note that the source performs
no `isActive` check: any session with a matching owner is marked inactive, a
synthetic `game_ended` action is appended, and the current score is returned
as `finalScore`. -/
def endGameSession (store : SessionStore) (sessionId playerAddress : String)
    (now : Int) : EndResult × SessionStore :=
  match store sessionId with
  | none => ({ valid := false, finalScore := none, error := some "Invalid session ID" }, store)
  | some session =>
    if session.playerAddress ≠ playerAddress then
      ({ valid := false, finalScore := none,
         error := some "Session belongs to different player" }, store)
    else
      let s1 := { session with
        isActive := false
        actions := session.actions ++ [{ type := "game_ended", timestamp := now }] }
      ({ valid := true, finalScore := some s1.score, error := none },
        setSession store sessionId s1)

/-- Result record of `getSessionStats`.  `accuracy` is a rational because the
source computes `(enemiesKilled / shotsFired) * 100` in JavaScript number
arithmetic and then rounds to two decimals. -/
structure SessionStats where
  score : Nat
  enemiesKilled : Nat
  shotsFired : Nat
  accuracy : ℚ
  sessionDuration : Int
deriving DecidableEq, Repr

/-- `getSessionStats(sessionId)` from `src/app/lib/game-session.ts`, lines
175-198.  `Math.round` rounds half toward positive infinity, exactly
Mathlib's `round`. -/
def getSessionStats (store : SessionStore) (sessionId : String) (now : Int) :
    Option SessionStats :=
  match store sessionId with
  | none => none
  | some session =>
    let accuracy : ℚ :=
      if session.shotsFired > 0 then
        ((session.enemiesKilled : ℚ) / (session.shotsFired : ℚ)) * 100
      else 0
    some
      { score := session.score
        enemiesKilled := session.enemiesKilled
        shotsFired := session.shotsFired
        accuracy := ((round (accuracy * 100) : ℤ) : ℚ) / 100
        sessionDuration := now - session.startTime }

/-! ## Auth module: nonces and session tokens (server auth source) -/

/-- A stored nonce record: `{ timestamp, used }`. -/
structure NonceData where
  timestamp : Int
  used : Bool
deriving DecidableEq, Repr

/-- The `activeNonces` map: nonce value to record. -/
def NonceStore : Type := String → Option NonceData

/-- `activeNonces.set(nonce, data)`. -/
def setNonce (store : NonceStore) (nonce : String) (d : NonceData) : NonceStore :=
  fun k => if k = nonce then some d else store k

/-- `activeNonces.delete(nonce)`. -/
def deleteNonce (store : NonceStore) (nonce : String) : NonceStore :=
  fun k => if k = nonce then none else store k

/-- `NONCE_EXPIRY` (milliseconds). -/
def NONCE_EXPIRY : Int := 5 * 60 * 1000

/-- `createNonce()`: stores a fresh nonce value as unused at the current
time.  The random value is passed in explicitly. -/
def createNonce (store : NonceStore) (nonce : String) (now : Int) : NonceStore :=
  setNonce store nonce { timestamp := now, used := false }

/-- `verifySignatureAndNonce(address, signature, nonce)`: looks the nonce up,
rejects missing or used nonces, deletes and rejects expired ones, and on a
valid signature (oracle argument `sigValid`, the outcome of viem's
`verifyMessage` over the canonical challenge message) marks the nonce used
and accepts.  Returns the outcome and the post-call nonce store. -/
def verifySignatureAndNonce (store : NonceStore) (nonce : String)
    (sigValid : Bool) (now : Int) : Bool × NonceStore :=
  match store nonce with
  | none => (false, store)
  | some nd =>
    if nd.used then (false, store)
    else if now - nd.timestamp > NONCE_EXPIRY then
      (false, deleteNonce store nonce)
    else if sigValid then
      (true, setNonce store nonce { nd with used := true })
    else (false, store)

/-- A session token: the SHA-256 digest of
`playerAddress + "-" + timestamp + "-" + SERVER_API_SECRET`, idealised as a
collision-free pairing of the digested fields. -/
structure SessionToken where
  playerAddress : String
  timestamp : Int
  secret : String
deriving DecidableEq, Repr

/-- `generateSessionToken(playerAddress, timestamp)`. -/
def generateSessionToken (secret playerAddress : String) (timestamp : Int) :
    SessionToken :=
  { playerAddress := playerAddress, timestamp := timestamp, secret := secret }

/-- `Math.floor(t / 30000) * 30000`: the 30-second bucket containing `t`.
`Int` division in Lean is Euclidean, which agrees with `Math.floor` division
for the positive divisor 30000. -/
def bucketFloor (t : Int) : Int := t / 30000 * 30000

/-- `validateSessionToken(token, playerAddress, timestampWindow)`: recomputes
the expected token for the bucket of `now - i` for
`i = 0, 30000, 60000, ...` while `i < timestampWindow`, accepting on any
match.  The loop body runs `⌈timestampWindow / 30000⌉` times. -/
def validateSessionToken (secret : String) (token : SessionToken)
    (playerAddress : String) (timestampWindow : Nat) (now : Int) : Bool :=
  (List.range ((timestampWindow + 29999) / 30000)).any fun k =>
    token == generateSessionToken secret playerAddress
      (bucketFloor (now - 30000 * (k : Int)))

/-! ## Score commit handler (`src/app/api/update-player-data/route.ts`) -/

/-- Modelled from the spec: `generateRequestId` of the request-deduplication
module, which is not under `src/`.  The spec describes it as a deterministic
fingerprint of the triple `(playerAddress, amount, sessionId)`; it is
idealised as the triple itself. -/
structure RequestId where
  playerAddress : String
  amount : Nat
  sessionId : String
deriving DecidableEq, Repr

/-- The JSON body of an update-player-data request.  The handler destructures
only `playerAddress`, `gameSessionId` and `sessionToken`; `clientScore`
stands for any client-supplied score field that may be present in the body
and is never read. -/
structure UpdateBody where
  playerAddress : Option String
  gameSessionId : Option String
  sessionToken : Option SessionToken
  clientScore : Option Nat
deriving DecidableEq, Repr

/-- Arguments forwarded to the external write collaborator
(`walletClient.writeContract`, function `updatePlayerData`). -/
structure WriteArgs where
  playerAddress : String
  scoreAmount : Nat
  transactionAmount : Nat
deriving DecidableEq, Repr

/-- Outcome of the POST handler: an error response with a status code, or a
contract write with the forwarded arguments (followed by a success
response). -/
inductive UpdateOutcome where
  | errorResp (msg : String) (status : Nat)
  | write (args : WriteArgs)
deriving DecidableEq, Repr

/-- `POST` of `src/app/api/update-player-data/route.ts`.  External
collaborators are oracles: `originOk` is `validateOrigin`, `rateAllowed` is
the rate limiter verdict, `addrValid` is `isValidAddress` from the blockchain
module, `isDup` is `isDuplicateRequest` over the deduplication store, and
`keySet` tells whether `WALLET_PRIVATE_KEY` is configured.  The handler reads
the committed score exclusively from the stored game session. -/
def updatePlayerData (originOk rateAllowed : Bool) (addrValid : String → Bool)
    (isDup : RequestId → Bool) (keySet : Bool) (secret : String)
    (store : SessionStore) (body : UpdateBody) (now : Int) : UpdateOutcome :=
  if originOk = false then .errorResp "Forbidden: Invalid origin" 403
  else if rateAllowed = false then .errorResp "Too many requests" 429
  else
    match body.sessionToken with
    | none => .errorResp "Unauthorized: Invalid or expired session token" 401
    | some tok =>
      if validateSessionToken secret tok (body.playerAddress.getD "undefined")
          300000 now = false then
        .errorResp "Unauthorized: Invalid or expired session token" 401
      else
        match body.playerAddress, body.gameSessionId with
        | none, _ =>
          .errorResp "Missing required fields: playerAddress, gameSessionId" 400
        | some _, none =>
          .errorResp "Missing required fields: playerAddress, gameSessionId" 400
        | some addr, some sid =>
          if addrValid addr = false then
            .errorResp "Invalid player address format" 400
          else
            match store sid with
            | none => .errorResp "Invalid game session ID" 400
            | some session =>
              if session.playerAddress ≠ addr then
                .errorResp "Game session belongs to different player" 403
              else if session.isActive then
                .errorResp "Game session is still active. End the session first." 400
              else
                let scoreAmount := session.score
                let transactionAmount : Nat := 1
                if isDup { playerAddress := addr, amount := scoreAmount,
                           sessionId := sid } then
                  .errorResp "Duplicate request detected. Please wait before retrying." 409
                else if keySet = false then
                  .errorResp "Server configuration error" 500
                else
                  .write { playerAddress := addr, scoreAmount := scoreAmount,
                           transactionAmount := transactionAmount }

/-! ## Concrete fixtures used by witnesses and counterexamples -/

/-- An active session sitting exactly at the score cap, after 1000 accepted
kills. -/
def sessionAtCap : GameSession :=
  { playerAddress := "0xA", sessionId := "s", startTime := 0, lastAction := 0,
    actions := [{ type := "game_started", timestamp := 0 }],
    score := 10000, enemiesKilled := 1000, shotsFired := 0, isActive := true }

/-- A store holding `sessionAtCap` under id `"s"`. -/
def storeAtCap : SessionStore := fun k => if k = "s" then some sessionAtCap else none

/-- An ordinary active session with a few validated actions. -/
def sessionMid : GameSession :=
  { playerAddress := "0xA", sessionId := "s", startTime := 0, lastAction := 0,
    actions := [{ type := "game_started", timestamp := 0 }],
    score := 30, enemiesKilled := 3, shotsFired := 5, isActive := true }

/-- A store holding `sessionMid` under id `"s"`. -/
def storeMid : SessionStore := fun k => if k = "s" then some sessionMid else none

/-- An ended session with 3 shots and 1 kill, as in the end-to-end example. -/
def sessionEnded : GameSession :=
  { playerAddress := "0xA", sessionId := "s", startTime := 0, lastAction := 400,
    actions := [], score := 10, enemiesKilled := 1, shotsFired := 3, isActive := false }

/-- A store holding `sessionEnded` under id `"s"`. -/
def storeEnded : SessionStore := fun k => if k = "s" then some sessionEnded else none

/-- A nonce store holding one fresh unused nonce `"n"` issued at time 0. -/
def nonceStoreFresh : NonceStore :=
  fun k => if k = "n" then some { timestamp := 0, used := false } else none

/-- A concrete score-commit request body for the ended session, carrying a
client-supplied score field that the handler must ignore. -/
def commitBody : UpdateBody :=
  { playerAddress := some "0xA", gameSessionId := some "s",
    sessionToken := some (generateSessionToken "sec" "0xA" 0),
    clientScore := some 999999 }

/-! ## Theorems -/

/-- C8: an action submitted with a `playerAddress` different from the
session's owner is rejected with the "Session belongs to different player"
failure, and the session store — hence the session's score, counters, flags
and action list — is entirely unchanged. -/
theorem session_mismatch_frame (store : SessionStore) (sid addr atype : String)
    (now : Int) (session : GameSession)
    (hs : store sid = some session)
    (hne : session.playerAddress ≠ addr) :
    validateGameAction store sid addr atype now =
      ({ valid := false, error := some "Session belongs to different player" }, store) := by
  unfold validateGameAction
  rw [hs]
  simp [hne]

/-- C8 witness: a concrete mismatching request is rejected and the store is
returned unchanged. -/
theorem session_mismatch_frame_witness :
    validateGameAction storeMid "s" "0xB" "shot_fired" 100 =
      ({ valid := false, error := some "Session belongs to different player" }, storeMid) :=
  session_mismatch_frame storeMid "s" "0xB" "shot_fired" 100 sessionMid (by decide)
    (by decide)

/-- C9: for an active session passing the id, ownership, expiry and spacing
checks, an action whose type is none of `shot_fired`, `enemy_killed`,
`game_ended` (including a client-submitted `game_started` or any
unrecognised string) is accepted: the action is appended, `lastAction`
advances, and score, kill, shot counters and `isActive` are unchanged. -/
theorem unknown_action_accepted (store : SessionStore) (sid addr atype : String)
    (now : Int) (session : GameSession)
    (hs : store sid = some session)
    (hown : session.playerAddress = addr)
    (hact : session.isActive = true)
    (hexp : ¬ now - session.startTime > MAX_SESSION_DURATION)
    (hfreq : ¬ now - session.lastAction < MIN_TIME_BETWEEN_ACTIONS)
    (h1 : atype ≠ "shot_fired") (h2 : atype ≠ "enemy_killed")
    (h3 : atype ≠ "game_ended") :
    validateGameAction store sid addr atype now =
      ({ valid := true, error := none },
        setSession store sid
          { session with
            actions := session.actions ++ [{ type := atype, timestamp := now }]
            lastAction := now }) := by
  unfold validateGameAction
  rw [hs]
  simp [hown, hact, hexp, hfreq, h1, h2, h3]

/-- C9 witness: a concrete `game_started` submission against an otherwise
valid active session is accepted and only appends the action. -/
theorem unknown_action_accepted_witness :
    validateGameAction storeMid "s" "0xA" "game_started" 100 =
      ({ valid := true, error := none },
        setSession storeMid "s"
          { sessionMid with
            actions := sessionMid.actions ++ [{ type := "game_started", timestamp := 100 }]
            lastAction := 100 }) :=
  unknown_action_accepted storeMid "s" "0xA" "game_started" 100 sessionMid
    (by decide) (by decide) (by decide) (by decide) (by decide) (by decide)
    (by decide) (by decide)

/-- C6: for an active session passing the ownership, expiry and 50 ms
spacing checks, a `shot_fired` action is rejected exactly when the number of
`shot_fired` actions in the trailing second is already at least 10, and is
otherwise accepted with `shotsFired` incremented by 1 (so up to 10 shots in
any one-second span succeed and the 11th fails). -/
theorem shot_rate_limit (store : SessionStore) (sid addr : String)
    (now : Int) (session : GameSession)
    (hs : store sid = some session)
    (hown : session.playerAddress = addr)
    (hact : session.isActive = true)
    (hexp : ¬ now - session.startTime > MAX_SESSION_DURATION)
    (hfreq : ¬ now - session.lastAction < MIN_TIME_BETWEEN_ACTIONS) :
    (recentCountOf session "shot_fired" now ≥ MAX_SHOTS_PER_SECOND →
      validateGameAction store sid addr "shot_fired" now =
        ({ valid := false, error := some "Too many shots fired per second" }, store)) ∧
    (recentCountOf session "shot_fired" now < MAX_SHOTS_PER_SECOND →
      validateGameAction store sid addr "shot_fired" now =
        ({ valid := true, error := none },
          setSession store sid
            { session with
              shotsFired := session.shotsFired + 1
              actions := session.actions ++ [{ type := "shot_fired", timestamp := now }]
              lastAction := now })) := by
  constructor <;> intro h <;> unfold validateGameAction <;> rw [hs] <;>
    simp [hown, hact, hexp, hfreq, h, Nat.not_le_of_lt, Nat.not_lt_of_le]

/-- C6 witness: a concrete in-range shot is accepted with the counter
incremented. -/
theorem shot_rate_limit_witness :
    recentCountOf sessionMid "shot_fired" 100 < MAX_SHOTS_PER_SECOND ∧
    validateGameAction storeMid "s" "0xA" "shot_fired" 100 =
      ({ valid := true, error := none },
        setSession storeMid "s"
          { sessionMid with
            shotsFired := sessionMid.shotsFired + 1
            actions := sessionMid.actions ++ [{ type := "shot_fired", timestamp := 100 }]
            lastAction := 100 }) :=
  ⟨by decide,
    (shot_rate_limit storeMid "s" "0xA" 100 sessionMid (by decide) (by decide)
      (by decide) (by decide) (by decide)).2 (by decide)⟩

/-- C7: for an active session passing the ownership, expiry and 50 ms
spacing checks, an `enemy_killed` action is rejected when the number of
`enemy_killed` actions in the trailing second is already at least 5, and
every accepted `enemy_killed` increments `enemiesKilled` by 1 and adds
exactly 10 points to the score. -/
theorem kill_rate_and_score (store : SessionStore) (sid addr : String)
    (now : Int) (session : GameSession)
    (hs : store sid = some session)
    (hown : session.playerAddress = addr)
    (hact : session.isActive = true)
    (hexp : ¬ now - session.startTime > MAX_SESSION_DURATION)
    (hfreq : ¬ now - session.lastAction < MIN_TIME_BETWEEN_ACTIONS) :
    (recentCountOf session "enemy_killed" now ≥ MAX_KILLS_PER_SECOND →
      validateGameAction store sid addr "enemy_killed" now =
        ({ valid := false, error := some "Too many kills per second" }, store)) ∧
    ((validateGameAction store sid addr "enemy_killed" now).1.valid = true →
      (validateGameAction store sid addr "enemy_killed" now).2 =
        setSession store sid
          { session with
            enemiesKilled := session.enemiesKilled + 1
            score := session.score + POINTS_PER_KILL
            actions := session.actions ++ [{ type := "enemy_killed", timestamp := now }]
            lastAction := now }) := by
  constructor
  · intro h
    unfold validateGameAction
    rw [hs]
    simp [hown, hact, hexp, hfreq, h]
  · intro h
    unfold validateGameAction at h ⊢
    rw [hs] at h ⊢
    by_cases hrate : recentCountOf session "enemy_killed" now ≥ MAX_KILLS_PER_SECOND
    · simp [hown, hact, hexp, hfreq, hrate] at h
    · by_cases hcap : session.score + POINTS_PER_KILL > MAX_SCORE_PER_SESSION
      · simp [hown, hact, hexp, hfreq, hrate, hcap] at h
      · simp [hown, hact, hexp, hfreq, hrate, hcap]

/-- C7 witness: a concrete in-range kill is accepted, incrementing the kill
counter and adding exactly 10 points. -/
theorem kill_rate_and_score_witness :
    (validateGameAction storeMid "s" "0xA" "enemy_killed" 100).1.valid = true ∧
    (validateGameAction storeMid "s" "0xA" "enemy_killed" 100).2 =
      setSession storeMid "s"
        { sessionMid with
          enemiesKilled := sessionMid.enemiesKilled + 1
          score := sessionMid.score + POINTS_PER_KILL
          actions := sessionMid.actions ++ [{ type := "enemy_killed", timestamp := 100 }]
          lastAction := 100 } :=
  ⟨by decide,
    (kill_rate_and_score storeMid "s" "0xA" 100 sessionMid (by decide) (by decide)
      (by decide) (by decide) (by decide)).2 (by decide)⟩

/-- Case analysis of `validateGameAction` on a session present in the store:
exactly one of the rejection or acceptance branches of the source applies,
with the corresponding result and store mutation. -/
lemma vga_cases (store : SessionStore) (sid addr atype : String)
    (now : Int) (session : GameSession) (r : ActionResult × SessionStore)
    (hs : store sid = some session)
    (hr : validateGameAction store sid addr atype now = r) :
    (session.playerAddress ≠ addr ∧
      r = ({ valid := false, error := some "Session belongs to different player" }, store)) ∨
    (session.isActive = false ∧
      r = ({ valid := false, error := some "Game session is not active" }, store)) ∨
    (now - session.startTime > MAX_SESSION_DURATION ∧
      r = ({ valid := false, error := some "Game session expired" },
        setSession store sid { session with isActive := false })) ∨
    (now - session.lastAction < MIN_TIME_BETWEEN_ACTIONS ∧
      r = ({ valid := false, error := some "Actions too frequent" }, store)) ∨
    (atype = "shot_fired" ∧ recentCountOf session "shot_fired" now ≥ MAX_SHOTS_PER_SECOND ∧
      r = ({ valid := false, error := some "Too many shots fired per second" }, store)) ∨
    (atype = "shot_fired" ∧
      r = ({ valid := true, error := none },
        setSession store sid { session with
          shotsFired := session.shotsFired + 1
          actions := session.actions ++ [{ type := atype, timestamp := now }]
          lastAction := now })) ∨
    (atype = "enemy_killed" ∧ recentCountOf session "enemy_killed" now ≥ MAX_KILLS_PER_SECOND ∧
      r = ({ valid := false, error := some "Too many kills per second" }, store)) ∨
    (atype = "enemy_killed" ∧ session.score + POINTS_PER_KILL > MAX_SCORE_PER_SESSION ∧
      r = ({ valid := false, error := some "Score too high for session duration" },
        setSession store sid { session with
          enemiesKilled := session.enemiesKilled + 1
          score := session.score + POINTS_PER_KILL })) ∨
    (atype = "enemy_killed" ∧ session.score + POINTS_PER_KILL ≤ MAX_SCORE_PER_SESSION ∧
      r = ({ valid := true, error := none },
        setSession store sid { session with
          enemiesKilled := session.enemiesKilled + 1
          score := session.score + POINTS_PER_KILL
          actions := session.actions ++ [{ type := atype, timestamp := now }]
          lastAction := now })) ∨
    (atype = "game_ended" ∧
      r = ({ valid := true, error := none },
        setSession store sid { session with
          isActive := false
          actions := session.actions ++ [{ type := atype, timestamp := now }]
          lastAction := now })) ∨
    (atype ≠ "shot_fired" ∧ atype ≠ "enemy_killed" ∧ atype ≠ "game_ended" ∧
      r = ({ valid := true, error := none },
        setSession store sid { session with
          actions := session.actions ++ [{ type := atype, timestamp := now }]
          lastAction := now })) := by
  subst hr
  by_cases h1 : session.playerAddress ≠ addr
  · exact Or.inl ⟨h1, by unfold validateGameAction; rw [hs]; simp [h1]⟩
  by_cases h2 : session.isActive = false
  · exact Or.inr (Or.inl ⟨h2, by unfold validateGameAction; rw [hs]; simp [h1, h2]⟩)
  by_cases h3 : now - session.startTime > MAX_SESSION_DURATION
  · exact Or.inr (Or.inr (Or.inl ⟨h3, by
      unfold validateGameAction; rw [hs]; simp [h1, h2, h3]⟩))
  by_cases h4 : now - session.lastAction < MIN_TIME_BETWEEN_ACTIONS
  · exact Or.inr (Or.inr (Or.inr (Or.inl ⟨h4, by
      unfold validateGameAction; rw [hs]; simp [h1, h2, h3, h4]⟩)))
  by_cases h5 : atype = "shot_fired"
  · by_cases h6 : recentCountOf session "shot_fired" now ≥ MAX_SHOTS_PER_SECOND
    · refine Or.inr (Or.inr (Or.inr (Or.inr (Or.inl ⟨h5, h6, ?_⟩))))
      unfold validateGameAction; rw [hs]; simp [h1, h2, h3, h4, h5, h6]
    · refine Or.inr (Or.inr (Or.inr (Or.inr (Or.inr (Or.inl ⟨h5, ?_⟩)))))
      unfold validateGameAction; rw [hs]; simp [h1, h2, h3, h4, h5, h6]
  by_cases h7 : atype = "enemy_killed"
  · by_cases h8 : recentCountOf session "enemy_killed" now ≥ MAX_KILLS_PER_SECOND
    · refine Or.inr (Or.inr (Or.inr (Or.inr (Or.inr (Or.inr (Or.inl ⟨h7, h8, ?_⟩)))))) 
      unfold validateGameAction; rw [hs]; simp [h1, h2, h3, h4, h5, h7, h8]
    · by_cases h9 : session.score + POINTS_PER_KILL > MAX_SCORE_PER_SESSION
      · refine Or.inr (Or.inr (Or.inr (Or.inr (Or.inr (Or.inr (Or.inr (Or.inl ⟨h7, h9, ?_⟩)))))))
        unfold validateGameAction; rw [hs]; simp [h1, h2, h3, h4, h5, h7, h8, h9]
      · refine Or.inr (Or.inr (Or.inr (Or.inr (Or.inr (Or.inr (Or.inr (Or.inr (Or.inl ⟨h7, by omega, ?_⟩))))))))
        unfold validateGameAction; rw [hs]; simp [h1, h2, h3, h4, h5, h7, h8, h9]
  by_cases h10 : atype = "game_ended"
  · refine Or.inr (Or.inr (Or.inr (Or.inr (Or.inr (Or.inr (Or.inr (Or.inr (Or.inr (Or.inl ⟨h10, ?_⟩)))))))))
    unfold validateGameAction; rw [hs]; simp [h1, h2, h3, h4, h5, h7, h10]
  · refine Or.inr (Or.inr (Or.inr (Or.inr (Or.inr (Or.inr (Or.inr (Or.inr (Or.inr (Or.inr ⟨h5, h7, h10, ?_⟩)))))))))
    unfold validateGameAction; rw [hs]; simp [h1, h2, h3, h4, h5, h7, h10]

/-- C1 amended: the session score is monotonic non-decreasing across
`validateGameAction` calls, and an accepted action preserves the 10000-point
cap; but an `enemy_killed` whose resulting score would exceed 10000, while
rejected, still increments the stored score by 10 (and the kill counter), so
the stored score can exceed 10000 after such a rejection. -/
theorem score_cap_amended (store : SessionStore) (sid addr atype : String)
    (now : Int) (session session' : GameSession)
    (hs : store sid = some session)
    (hs' : (validateGameAction store sid addr atype now).2 sid = some session') :
    session.score ≤ session'.score ∧
    ((validateGameAction store sid addr atype now).1.valid = true →
      session.score ≤ MAX_SCORE_PER_SESSION → session'.score ≤ MAX_SCORE_PER_SESSION) ∧
    (atype = "enemy_killed" →
      session.playerAddress = addr → session.isActive = true →
      ¬ now - session.startTime > MAX_SESSION_DURATION →
      ¬ now - session.lastAction < MIN_TIME_BETWEEN_ACTIONS →
      ¬ recentCountOf session "enemy_killed" now ≥ MAX_KILLS_PER_SECOND →
      session.score + POINTS_PER_KILL > MAX_SCORE_PER_SESSION →
      (validateGameAction store sid addr atype now).1.valid = false ∧
      session'.score = session.score + POINTS_PER_KILL) := by
  rcases vga_cases store sid addr atype now session _ hs rfl with
    ⟨h, hr⟩ | ⟨h, hr⟩ | ⟨h, hr⟩ | ⟨h, hr⟩ | ⟨h5, h6, hr⟩ | ⟨h5, hr⟩ |
    ⟨h7, h8, hr⟩ | ⟨h7, h9, hr⟩ | ⟨h7, h9, hr⟩ | ⟨h10, hr⟩ | ⟨hn1, hn2, hn3, hr⟩
  · rw [hr] at hs'; simp [setSession, hs] at hs'; subst hs'
    exact ⟨le_rfl, fun hv _ => by rw [hr] at hv; simp at hv,
      fun _ hown _ _ _ _ _ => absurd hown h⟩
  · rw [hr] at hs'; simp [setSession, hs] at hs'; subst hs'
    exact ⟨le_rfl, fun hv _ => by rw [hr] at hv; simp at hv,
      fun _ _ hact _ _ _ _ => by rw [hact] at h; simp at h⟩
  · rw [hr] at hs'; simp [setSession, hs] at hs'; subst hs'
    exact ⟨le_rfl, fun hv _ => by rw [hr] at hv; simp at hv,
      fun _ _ _ hexp _ _ _ => absurd h hexp⟩
  · rw [hr] at hs'; simp [setSession, hs] at hs'; subst hs'
    exact ⟨le_rfl, fun hv _ => by rw [hr] at hv; simp at hv,
      fun _ _ _ _ hfreq _ _ => absurd h hfreq⟩
  · rw [hr] at hs'; simp [setSession, hs] at hs'; subst hs'
    exact ⟨le_rfl, fun hv _ => by rw [hr] at hv; simp at hv,
      fun he _ _ _ _ _ _ => by rw [h5] at he; simp at he⟩
  · rw [hr] at hs'; simp [setSession, hs] at hs'; subst hs'
    exact ⟨le_rfl, fun _ hcap => hcap,
      fun he _ _ _ _ _ _ => by rw [h5] at he; simp at he⟩
  · rw [hr] at hs'; simp [setSession, hs] at hs'; subst hs'
    exact ⟨le_rfl, fun hv _ => by rw [hr] at hv; simp at hv,
      fun _ _ _ _ _ hrate _ => absurd h8 hrate⟩
  · rw [hr] at hs'; simp [setSession, hs] at hs'; subst hs'
    exact ⟨Nat.le_add_right _ _, fun hv _ => by rw [hr] at hv; simp at hv,
      fun _ _ _ _ _ _ _ => ⟨by rw [hr], rfl⟩⟩
  · rw [hr] at hs'; simp [setSession, hs] at hs'; subst hs'
    exact ⟨Nat.le_add_right _ _, fun _ _ => h9,
      fun _ _ _ _ _ _ hcap => absurd hcap (by omega)⟩
  · rw [hr] at hs'; simp [setSession, hs] at hs'; subst hs'
    exact ⟨le_rfl, fun _ hcap => hcap,
      fun he _ _ _ _ _ _ => by rw [h10] at he; simp at he⟩
  · rw [hr] at hs'; simp [setSession, hs] at hs'; subst hs'
    exact ⟨le_rfl, fun _ hcap => hcap, fun he _ _ _ _ _ _ => absurd he hn2⟩

/-- C1 counterexample: on a session whose score sits exactly at the 10000
cap, an `enemy_killed` passing every other check is rejected, yet the stored
session's score afterwards is 10010, exceeding the cap — refuting "rejected
with the session's score still at most 10000". -/
theorem score_cap_counterexample :
    (validateGameAction storeAtCap "s" "0xA" "enemy_killed" 100).1.valid = false ∧
    ((validateGameAction storeAtCap "s" "0xA" "enemy_killed" 100).2 "s").map
      GameSession.score = some (MAX_SCORE_PER_SESSION + POINTS_PER_KILL) := by
  decide

/-- C1 amended witness: the over-cap clause of the amended claim instantiated
on the concrete at-cap session. -/
theorem score_cap_amended_witness :
    (validateGameAction storeAtCap "s" "0xA" "enemy_killed" 100).1.valid = false ∧
    ∀ session', (validateGameAction storeAtCap "s" "0xA" "enemy_killed" 100).2 "s" =
      some session' → session'.score = sessionAtCap.score + POINTS_PER_KILL :=
  ⟨by decide, fun session' hs' =>
    ((score_cap_amended storeAtCap "s" "0xA" "enemy_killed" 100 sessionAtCap session'
      (by decide) hs').2.2 rfl (by decide) (by decide) (by decide) (by decide)
      (by decide) (by decide)).2⟩

/-- C4 counterexample: on a concrete active session, a second successive
`endGameSession` call with the matching owner again returns
`valid := true` with the same `finalScore` — not the SessionInactive
("Game session is not active") failure the claim requires. -/
theorem end_twice_counterexample :
    (endGameSession (endGameSession storeMid "s" "0xA" 100).2 "s" "0xA" 200).1 =
      { valid := true, finalScore := some 30, error := none } := by
  decide

/-- C4 amended: `endGameSession` performs no `isActive` check, so of two
successive `end()` calls on a stored session with matching owner the first
transitions Active to Ended and returns the final score, and the second
also returns `valid := true` with the same final score (a no-op on
`isActive`), rather than a SessionInactive failure. -/
theorem end_twice_amended (store : SessionStore) (sid addr : String)
    (now1 now2 : Int) (session : GameSession)
    (hs : store sid = some session)
    (hown : session.playerAddress = addr) :
    (endGameSession store sid addr now1).1 =
      { valid := true, finalScore := some session.score, error := none } ∧
    ((endGameSession store sid addr now1).2 sid).map GameSession.isActive = some false ∧
    (endGameSession (endGameSession store sid addr now1).2 sid addr now2).1 =
      { valid := true, finalScore := some session.score, error := none } := by
  refine ⟨?_, ?_, ?_⟩
  · unfold endGameSession
    rw [hs]
    simp [hown]
  · unfold endGameSession
    rw [hs]
    simp [hown, setSession]
  · unfold endGameSession
    rw [hs]
    simp [hown, setSession]

/-- C4 amended witness: the amended claim instantiated on a concrete active
session. -/
theorem end_twice_amended_witness :
    (endGameSession storeMid "s" "0xA" 100).1 =
      { valid := true, finalScore := some sessionMid.score, error := none } ∧
    ((endGameSession storeMid "s" "0xA" 100).2 "s").map GameSession.isActive = some false ∧
    (endGameSession (endGameSession storeMid "s" "0xA" 100).2 "s" "0xA" 200).1 =
      { valid := true, finalScore := some sessionMid.score, error := none } :=
  end_twice_amended storeMid "s" "0xA" 100 200 sessionMid (by decide) (by decide)

/-- C3 counterexample: a present, unused nonce of age just over five minutes
fails `consume`, but the nonce store is mutated — the entry is deleted — and
a present, unused nonce of age exactly five minutes (not "younger than 5
minutes") is consumed successfully; both refute the claim as stated. -/
theorem nonce_consume_counterexample :
    ((verifySignatureAndNonce nonceStoreFresh "n" true 300001).1 = false ∧
      (verifySignatureAndNonce nonceStoreFresh "n" true 300001).2 "n" = none) ∧
    (verifySignatureAndNonce nonceStoreFresh "n" true 300000).1 = true := by
  decide

/-- C3 amended: with a valid signature, `consume` returns true and marks the
nonce used iff the nonce is present, unused, and of age at most (not
strictly less than) 5 minutes; a present-but-expired nonce yields false and
is deleted from the store (a mutation); a missing or already-used nonce
yields false with the store unchanged; and a second consume on the same
value after a successful first returns false. -/
theorem nonce_consume_amended (store : NonceStore) (nonce : String)
    (now now2 : Int) :
    ((verifySignatureAndNonce store nonce true now).1 = true ↔
      ∃ nd, store nonce = some nd ∧ nd.used = false ∧
        now - nd.timestamp ≤ NONCE_EXPIRY) ∧
    (∀ nd, store nonce = some nd → nd.used = false →
      now - nd.timestamp ≤ NONCE_EXPIRY →
      (verifySignatureAndNonce store nonce true now).2 nonce =
        some { timestamp := nd.timestamp, used := true }) ∧
    (∀ nd, store nonce = some nd → nd.used = false →
      now - nd.timestamp > NONCE_EXPIRY →
      (verifySignatureAndNonce store nonce true now).1 = false ∧
      (verifySignatureAndNonce store nonce true now).2 nonce = none) ∧
    (store nonce = none → (verifySignatureAndNonce store nonce true now).2 = store) ∧
    (∀ nd, store nonce = some nd → nd.used = true →
      (verifySignatureAndNonce store nonce true now).2 = store) ∧
    ((verifySignatureAndNonce store nonce true now).1 = true →
      (verifySignatureAndNonce (verifySignatureAndNonce store nonce true now).2
        nonce true now2).1 = false) := by
  refine ⟨?_, ?_, ?_, ?_, ?_, ?_⟩
  · constructor
    · intro h
      unfold verifySignatureAndNonce at h
      cases hnd : store nonce with
      | none => rw [hnd] at h; simp at h
      | some nd =>
        rw [hnd] at h
        by_cases hu : nd.used
        · simp [hu] at h
        · by_cases he : now - nd.timestamp > NONCE_EXPIRY
          · simp [hu, he] at h
          · exact ⟨nd, rfl, by simpa using hu, by omega⟩
    · rintro ⟨nd, hnd, hu, he⟩
      unfold verifySignatureAndNonce
      rw [hnd]
      have hne : ¬ now - nd.timestamp > NONCE_EXPIRY := by omega
      simp [hu, hne]
  · intro nd hnd hu he
    unfold verifySignatureAndNonce
    rw [hnd]
    have : ¬ now - nd.timestamp > NONCE_EXPIRY := by omega
    simp [hu, this, setNonce]
  · intro nd hnd hu he
    unfold verifySignatureAndNonce
    rw [hnd]
    simp [hu, he, deleteNonce]
  · intro hnd
    unfold verifySignatureAndNonce
    rw [hnd]
  · intro nd hnd hu
    unfold verifySignatureAndNonce
    rw [hnd]
    simp [hu]
  · intro h
    unfold verifySignatureAndNonce at h ⊢
    cases hnd : store nonce with
    | none => rw [hnd] at h; simp at h
    | some nd =>
      rw [hnd] at h
      by_cases hu : nd.used
      · simp [hu] at h
      · by_cases he : now - nd.timestamp > NONCE_EXPIRY
        · simp [hu, he] at h
        · simp [hu, he, setNonce]

/-- C3 amended witness: the amended claim instantiated on the concrete fresh
nonce store — a first consume succeeds and marks the nonce used, and the
second consume fails. -/
theorem nonce_consume_amended_witness :
    (verifySignatureAndNonce nonceStoreFresh "n" true 1000).1 = true ∧
    (verifySignatureAndNonce nonceStoreFresh "n" true 1000).2 "n" =
      some { timestamp := 0, used := true } ∧
    (verifySignatureAndNonce
      (verifySignatureAndNonce nonceStoreFresh "n" true 1000).2 "n" true 2000).1 = false :=
  ⟨(nonce_consume_amended nonceStoreFresh "n" 1000 2000).1.mpr
      ⟨{ timestamp := 0, used := false }, by decide, rfl, by decide⟩,
    (nonce_consume_amended nonceStoreFresh "n" 1000 2000).2.1
      { timestamp := 0, used := false } (by decide) rfl (by decide),
    (nonce_consume_amended nonceStoreFresh "n" 1000 2000).2.2.2.2.2
      ((nonce_consume_amended nonceStoreFresh "n" 1000 2000).1.mpr
        ⟨{ timestamp := 0, used := false }, by decide, rfl, by decide⟩)⟩

/-- Helper: the 30-second bucket of `t` equals `t` minus its remainder. -/
lemma bucketFloor_sub (t : Int) : bucketFloor t = t - t % 30000 := by
  unfold bucketFloor
  omega

/-- Helper: under the idealised collision-free digest, tokens for the same
address and secret coincide exactly when their timestamps do. -/
lemma generateSessionToken_timestamp_inj (secret addr : String) (b b' : Int) :
    generateSessionToken secret addr b = generateSessionToken secret addr b' ↔ b = b' := by
  unfold generateSessionToken
  constructor
  · intro h
    exact congrArg SessionToken.timestamp h
  · intro h
    rw [h]

/-- Helper: characterisation of `validateSessionToken` at the default
5-minute window — it accepts exactly the tokens derived for a 30-second
bucket start within the trailing 300000 ms. -/
lemma validateSessionToken_default_iff (secret : String) (tok : SessionToken)
    (addr : String) (now : Int) :
    validateSessionToken secret tok addr 300000 now = true ↔
      ∃ b : Int, b % 30000 = 0 ∧ b ≤ now ∧ now - b < 300000 ∧
        tok = generateSessionToken secret addr b := by
  unfold validateSessionToken
  rw [List.any_eq_true]
  constructor
  · rintro ⟨k, hk, hb⟩
    rw [List.mem_range] at hk
    rw [beq_iff_eq] at hb
    refine ⟨bucketFloor (now - 30000 * (k : Int)), ?_, ?_, ?_, hb⟩
    · rw [bucketFloor_sub]; omega
    · rw [bucketFloor_sub]; omega
    · rw [bucketFloor_sub]; omega
  · rintro ⟨b, hmod, hle, hlt, htok⟩
    refine ⟨((now - b) / 30000).toNat, ?_, ?_⟩
    · rw [List.mem_range]
      omega
    · rw [beq_iff_eq, htok, generateSessionToken_timestamp_inj, bucketFloor_sub]
      omega

/-- C5: `validate(token, address, windowMs=300000)` returns true iff the
token equals `derive(address, b)` for some 30-second bucket start `b` in the
trailing 5-minute window; in particular a token derived for the bucket 10
minutes in the past is rejected. -/
theorem token_window_c5 (secret addr : String) (tok : SessionToken) (now : Int) :
    (validateSessionToken secret tok addr 300000 now = true ↔
      ∃ b : Int, b % 30000 = 0 ∧ b ≤ now ∧ now - b < 300000 ∧
        tok = generateSessionToken secret addr b) ∧
    validateSessionToken secret
      (generateSessionToken secret addr (bucketFloor (now - 600000))) addr 300000 now
      = false := by
  refine ⟨validateSessionToken_default_iff secret tok addr now, ?_⟩
  cases hv : validateSessionToken secret
      (generateSessionToken secret addr (bucketFloor (now - 600000))) addr 300000 now with
  | false => rfl
  | true =>
    exfalso
    obtain ⟨b, hmod, hle, hlt, htok⟩ :=
      (validateSessionToken_default_iff secret _ addr now).mp hv
    rw [generateSessionToken_timestamp_inj, bucketFloor_sub] at htok
    omega

/-- C5 witness: a 10-second-old token is accepted and a 10-minute-old token
is rejected at a concrete clock value. -/
theorem token_window_c5_witness :
    validateSessionToken "sec" (generateSessionToken "sec" "0xA" 600000) "0xA"
      300000 610000 = true ∧
    validateSessionToken "sec"
      (generateSessionToken "sec" "0xA" (bucketFloor (610000 - 600000))) "0xA"
      300000 610000 = false :=
  ⟨(token_window_c5 "sec" "0xA" (generateSessionToken "sec" "0xA" 600000) 610000).1.mpr
      ⟨600000, by decide, by decide, by decide, rfl⟩,
    (token_window_c5 "sec" "0xA" (generateSessionToken "sec" "0xA" 600000) 610000).2⟩

/-- C10: for every stored session, `getSessionStats` reports
`accuracy = 100 * enemiesKilled / shotsFired` rounded to two decimals
(`Math.round(x*100)/100`), with accuracy 0 when `shotsFired = 0`; a session
with 3 shots and 1 kill reports accuracy 33.33. -/
theorem stats_accuracy_c10 (store : SessionStore) (sid : String) (now : Int)
    (session : GameSession) (hs : store sid = some session) :
    ∃ st, getSessionStats store sid now = some st ∧
      st.score = session.score ∧
      st.enemiesKilled = session.enemiesKilled ∧
      st.shotsFired = session.shotsFired ∧
      (session.shotsFired = 0 → st.accuracy = 0) ∧
      (0 < session.shotsFired →
        st.accuracy =
          ((round (100 * (session.enemiesKilled : ℚ) / (session.shotsFired : ℚ) * 100) : ℤ) : ℚ) / 100) ∧
      (session.shotsFired = 3 → session.enemiesKilled = 1 → st.accuracy = 3333 / 100) ∧
      st.sessionDuration = now - session.startTime := by
  unfold getSessionStats
  rw [hs]
  refine ⟨_, rfl, rfl, rfl, rfl, ?_, ?_, ?_, rfl⟩
  · intro h0
    simp [h0]
  · intro hpos
    simp only [hpos, if_pos]
    have harg : (session.enemiesKilled : ℚ) / (session.shotsFired : ℚ) * 100 * 100 =
        100 * (session.enemiesKilled : ℚ) / (session.shotsFired : ℚ) * 100 := by
      ring
    rw [harg]
  · intro h3 h1
    rw [h3, h1]
    norm_num [round_eq]

/-- C10 witness: the ended 3-shots-1-kill session reports accuracy 33.33. -/
theorem stats_accuracy_c10_witness :
    ∃ st, getSessionStats storeEnded "s" 500 = some st ∧ st.accuracy = 3333 / 100 := by
  obtain ⟨st, heq, _, _, _, _, _, hex, _⟩ :=
    stats_accuracy_c10 storeEnded "s" 500 sessionEnded (by decide)
  exact ⟨st, heq, hex rfl rfl⟩

/-- C2: the score-commit handler forwards exactly
`{playerAddress, scoreAmount, transactionAmount = 1}` where `scoreAmount` is
the stored (ended) session's server-computed score, and two request bodies
that differ only in a client-supplied score field produce identical
outcomes — the client-supplied number never influences the write. -/
theorem commit_server_score_c2 (originOk rateAllowed : Bool)
    (addrValid : String → Bool) (isDup : RequestId → Bool) (keySet : Bool)
    (secret : String) (store : SessionStore) (body : UpdateBody) (now : Int) :
    (∀ args, updatePlayerData originOk rateAllowed addrValid isDup keySet secret
        store body now = .write args →
      args.transactionAmount = 1 ∧
      body.playerAddress = some args.playerAddress ∧
      ∃ sid session, body.gameSessionId = some sid ∧ store sid = some session ∧
        session.isActive = false ∧ args.scoreAmount = session.score) ∧
    (∀ x y : Option Nat,
      updatePlayerData originOk rateAllowed addrValid isDup keySet secret store
        { body with clientScore := x } now =
      updatePlayerData originOk rateAllowed addrValid isDup keySet secret store
        { body with clientScore := y } now) := by
  constructor
  · intro args h
    unfold updatePlayerData at h
    by_cases ho : originOk = false
    · exact absurd h (by simp [ho])
    by_cases hra : rateAllowed = false
    · exact absurd h (by simp [ho, hra])
    cases htok : body.sessionToken with
    | none => exact absurd h (by simp [ho, hra, htok])
    | some tok =>
    cases hbp : body.playerAddress with
    | none =>
      exact absurd h (by
        by_cases hu : validateSessionToken secret tok "undefined" 300000 now = false <;>
          simp [ho, hra, htok, hbp, hu])
    | some addr =>
    by_cases hval : validateSessionToken secret tok addr 300000 now = false
    · exact absurd h (by simp [ho, hra, htok, hbp, hval])
    cases hgs : body.gameSessionId with
    | none => exact absurd h (by simp [ho, hra, htok, hbp, hval, hgs])
    | some sid =>
    by_cases hav : addrValid addr = false
    · exact absurd h (by simp [ho, hra, htok, hbp, hval, hgs, hav])
    cases hsess : store sid with
    | none => exact absurd h (by simp [ho, hra, htok, hbp, hval, hgs, hav, hsess])
    | some session =>
    by_cases hmm : session.playerAddress ≠ addr
    · exact absurd h (by simp [ho, hra, htok, hbp, hval, hgs, hav, hsess, hmm])
    by_cases hia : session.isActive = true
    · exact absurd h (by simp [ho, hra, htok, hbp, hval, hgs, hav, hsess, hmm, hia])
    by_cases hdup : isDup { playerAddress := addr, amount := session.score, sessionId := sid } = true
    · exact absurd h (by simp [ho, hra, htok, hbp, hval, hgs, hav, hsess, hmm, hia, hdup])
    by_cases hkey : keySet = false
    · exact absurd h
        (by simp [ho, hra, htok, hbp, hval, hgs, hav, hsess, hmm, hia, hdup, hkey])
    simp [ho, hra, htok, hbp, hval, hgs, hav, hsess, hmm, hia, hdup, hkey] at h
    subst h
    exact ⟨rfl, rfl, sid, session, rfl, hsess, by simpa using hia, rfl⟩
  · intro x y
    rfl

/-- C2 witness: a concrete authorised commit of the ended session forwards
the server score 10 and transaction amount 1, ignoring the client-supplied
999999. -/
theorem commit_server_score_c2_witness :
    (updatePlayerData true true (fun _ => true) (fun _ => false) true "sec"
      storeEnded commitBody 1000 =
      .write { playerAddress := "0xA", scoreAmount := 10, transactionAmount := 1 }) ∧
    commitBody.playerAddress = some "0xA" ∧
    (∃ sid session, commitBody.gameSessionId = some sid ∧
      storeEnded sid = some session ∧ session.isActive = false ∧
      (10 : Nat) = session.score) :=
  ⟨by decide,
    ((commit_server_score_c2 true true (fun _ => true) (fun _ => false) true
        "sec" storeEnded commitBody 1000).1
        { playerAddress := "0xA", scoreAmount := 10, transactionAmount := 1 }
        (by decide)).2.1,
    ((commit_server_score_c2 true true (fun _ => true) (fun _ => false) true
        "sec" storeEnded commitBody 1000).1
        { playerAddress := "0xA", scoreAmount := 10, transactionAmount := 1 }
        (by decide)).2.2⟩


end Mission7
